import Mathlib

/-!
Shallow embedding of two Home Assistant modules:

* `homeassistant/components/logbook/queries.py` — construction of the
  logbook SQL statements.  SQL selects are embedded as executable Lean
  functions from a database value (lists of table rows) to the list of
  result rows, with SQL three-valued logic (`Option Bool`) for NULL
  handling and an executable `LIKE` matcher.
* `homeassistant/components/onewire/config_flow.py` — the 1-Wire config
  and options flow, embedded as explicit state-passing functions that
  return the framework's step result (`FlowResult`).
-/

/-! ## SQL three-valued logic

SQL booleans are `Option Bool`: `none` is the SQL NULL / UNKNOWN.
A `WHERE` clause keeps a row only when its predicate evaluates to
`some true`. -/

/-- SQL `AND` with NULL (three-valued) semantics. -/
def sqlAnd : Option Bool → Option Bool → Option Bool
  | some false, _ => some false
  | _, some false => some false
  | some true, some true => some true
  | _, _ => none

/-- SQL `OR` with NULL (three-valued) semantics. -/
def sqlOr : Option Bool → Option Bool → Option Bool
  | some true, _ => some true
  | _, some true => some true
  | some false, some false => some false
  | _, _ => none

/-- SQL `NOT`: NULL stays NULL. -/
def sqlNot : Option Bool → Option Bool :=
  Option.map not

/-- A SQL predicate holds on a row exactly when it evaluates to TRUE
(not FALSE and not NULL). -/
def sqlTrue (b : Option Bool) : Bool :=
  b = some true

/-- SQL equality on nullable values: NULL when either side is NULL. -/
def sqlEq {α : Type} [DecidableEq α] : Option α → Option α → Option Bool
  | some a, some b => some (a = b)
  | _, _ => none

/-- SQL inequality (`!=`) on nullable values: NULL when either side is NULL. -/
def sqlNe {α : Type} [DecidableEq α] : Option α → Option α → Option Bool
  | some a, some b => some (a ≠ b)
  | _, _ => none

/-- SQL `IS NOT NULL` (never NULL itself). -/
def sqlIsNotNull {α : Type} (x : Option α) : Option Bool :=
  some x.isSome

/-- Core of the SQL `LIKE` matcher over explicit character lists.
`%` matches any (possibly empty) substring, `_` matches exactly one
character; other characters match themselves. -/
def likeMatch : List Char → List Char → Bool
  | [], s => s.isEmpty
  | '%' :: ps, s => s.tails.any fun suffix => likeMatch ps suffix
  | '_' :: ps, s =>
    match s with
    | [] => false
    | _ :: s' => likeMatch ps s'
  | p :: ps, s =>
    match s with
    | [] => false
    | c :: s' => p = c && likeMatch ps s'

/-- SQL `LIKE` on a nullable column: NULL column gives NULL. -/
def sqlLike (col : Option String) (pat : String) : Option Bool :=
  col.map fun s => likeMatch pat.toList s.toList

/-- SQL `IN` against a list of nullable values (e.g. a sub-select of a
nullable column).  TRUE when a non-NULL element matches; FALSE only when
the set has no NULL and no match; otherwise NULL. -/
def sqlInList {α : Type} [DecidableEq α] (x : Option α) (l : List (Option α)) : Option Bool :=
  match x with
  | none => if l.isEmpty then some false else none
  | some v =>
    if l.contains (some v) then some true
    else if l.contains none then none
    else some false

/-! ## The recorder schema (events / states tables)

Timestamps (`time_fired`, `last_updated`, `last_changed`) are embedded
as `Int`; text columns that are nullable in the schema are
`Option String`. -/

structure EventRow where
  event_id : Nat
  event_type : String
  event_data : Option String
  time_fired : Int
  context_id : Option String
  context_user_id : Option String
  context_parent_id : Option String
  data_id : Option Nat
deriving DecidableEq, Repr

structure EventDataRow where
  data_id : Nat
  shared_data : Option String
deriving DecidableEq, Repr

structure StateRow where
  state_id : Nat
  entity_id : String
  state : Option String
  attributes : Option String
  attributes_id : Option Nat
  last_changed : Int
  last_updated : Int
  old_state_id : Option Nat
  event_id : Option Nat
  context_id : Option String
  context_user_id : Option String
  context_parent_id : Option String
deriving DecidableEq, Repr

structure StateAttributesRow where
  attributes_id : Nat
  shared_attrs : Option String
deriving DecidableEq, Repr

structure DB where
  events : List EventRow
  event_data : List EventDataRow
  states : List StateRow
  state_attributes : List StateAttributesRow
deriving DecidableEq, Repr

/-- `Events LEFT OUTER JOIN EventData ON Events.data_id == EventData.data_id`:
the joined `shared_data` value (`data_id` is the primary key of
`event_data`, so at most one row matches). -/
def lookupEventData (db : DB) (data_id : Option Nat) : Option String :=
  (data_id.bind fun i => db.event_data.find? fun d => d.data_id = i).bind
    EventDataRow.shared_data

/-- `LEFT OUTER JOIN old_state ON States.old_state_id == old_state.state_id`:
the joined old-state row (`state_id` is the primary key of `states`). -/
def lookupOldState (db : DB) (old_state_id : Option Nat) : Option StateRow :=
  old_state_id.bind fun i => db.states.find? fun s => s.state_id = i

/-- `LEFT OUTER JOIN StateAttributes ON States.attributes_id ==
StateAttributes.attributes_id`: the joined `shared_attrs` value. -/
def lookupSharedAttrs (db : DB) (attributes_id : Option Nat) : Option String :=
  (attributes_id.bind fun i => db.state_attributes.find? fun a => a.attributes_id = i).bind
    StateAttributesRow.shared_attrs

/-! ## Constants from queries.py -/

/-- `ENTITY_ID_JSON_TEMPLATE.format(entity_id)`: the Python template has
the entity id spliced between `"entity_id":"` and `"`, with `%` on both
ends. -/
def ENTITY_ID_JSON_TEMPLATE (entity_id : String) : String :=
  "%\"entity_id\":\"" ++ entity_id ++ "\"%"

/-- `CONTINUOUS_DOMAINS = {PROXIMITY_DOMAIN, SENSOR_DOMAIN}` rendered as
the LIKE patterns `CONTINUOUS_ENTITY_ID_LIKE`. -/
def CONTINUOUS_ENTITY_ID_LIKE : List String :=
  ["proximity.%", "sensor.%"]

def UNIT_OF_MEASUREMENT_JSON_LIKE : String :=
  "%\"unit_of_measurement\":%"

/-- `EVENT_STATE_CHANGED` from homeassistant.const. -/
def EVENT_STATE_CHANGED : String := "state_changed"

/-! ## The logbook result-row shape

One row of the unioned selects.  Branches that do not apply supply NULL
placeholders, exactly as `EMPTY_STATE_COLUMNS` does. -/

structure LogRow where
  event_id : Option Nat
  event_type : Option String
  event_data : Option String
  time_fired : Int
  context_id : Option String
  context_user_id : Option String
  context_parent_id : Option String
  shared_data : Option String
  state_id : Option Nat
  state : Option String
  entity_id : Option String
  attributes : Option String
  shared_attrs : Option String
  context_only : Bool
deriving DecidableEq, Repr

/-- Projection of an event row (joined with its shared data) to the
logbook row shape, with `EMPTY_STATE_COLUMNS` and the given
`context_only` marker. -/
def eventLogRow (db : DB) (context_only : Bool) (e : EventRow) : LogRow :=
  { event_id := some e.event_id
    event_type := some e.event_type
    event_data := e.event_data
    time_fired := e.time_fired
    context_id := e.context_id
    context_user_id := e.context_user_id
    context_parent_id := e.context_parent_id
    shared_data := lookupEventData db e.data_id
    state_id := none
    state := none
    entity_id := none
    attributes := none
    shared_attrs := none
    context_only := context_only }

/-- Projection of a state row (joined with its shared attributes) to the
logbook row shape, as `_select_states` builds it: `time_fired` is
`States.last_changed` and `event_type` the `state_changed` literal. -/
def stateLogRow (db : DB) (s : StateRow) : LogRow :=
  { event_id := none
    event_type := some EVENT_STATE_CHANGED
    event_data := none
    time_fired := s.last_changed
    context_id := s.context_id
    context_user_id := s.context_user_id
    context_parent_id := s.context_parent_id
    shared_data := none
    state_id := some s.state_id
    state := s.state
    entity_id := some s.entity_id
    attributes := s.attributes
    shared_attrs := lookupSharedAttrs db s.attributes_id
    context_only := false }

/-! ## The WHERE-clause matchers -/

/-- `_not_uom_attributes_matcher`:
`~StateAttributes.shared_attrs.like(UOM) | ~States.attributes.like(UOM)`. -/
def _not_uom_attributes_matcher (attributes shared_attrs : Option String) : Option Bool :=
  sqlOr (sqlNot (sqlLike shared_attrs UNIT_OF_MEASUREMENT_JSON_LIKE))
    (sqlNot (sqlLike attributes UNIT_OF_MEASUREMENT_JSON_LIKE))

/-- `_not_continuous_domain_matcher`: AND over
`~States.entity_id.like(domain)` for the continuous-domain patterns.
`entity_id` is nullable in the legacy join, hence the `Option`. -/
def _not_continuous_domain_matcher (entity_id : Option String) : Option Bool :=
  CONTINUOUS_ENTITY_ID_LIKE.foldr
    (fun pat acc => sqlAnd (sqlNot (sqlLike entity_id pat)) acc) (some true)

/-- `_continuous_domain_matcher`: OR over `States.entity_id.like(domain)`
for the continuous-domain patterns. -/
def _continuous_domain_matcher (entity_id : Option String) : Option Bool :=
  CONTINUOUS_ENTITY_ID_LIKE.foldr
    (fun pat acc => sqlOr (sqlLike entity_id pat) acc) (some false)

/-- `_not_continuous_entity_matcher`: keep the row when its domain is not
continuous, or when it is continuous but the UOM attribute key is absent.
(In the Python source `_continuous_domain_matcher` is passed to
`sqlalchemy.and_` as a callable; SQLAlchemy 1.4 coerces a callable
argument of a WHERE-clause role into a lambda element and invokes it, so
the produced SQL is the called matcher.) -/
def _not_continuous_entity_matcher (entity_id attributes shared_attrs : Option String) :
    Option Bool :=
  sqlOr (_not_continuous_domain_matcher entity_id)
    (sqlAnd (_continuous_domain_matcher entity_id)
      (_not_uom_attributes_matcher attributes shared_attrs))

/-- `_missing_state_matcher old_state`: the row must have a joined old
state, a differing value, and a non-NULL value of its own. -/
def _missing_state_matcher (s : StateRow) (old_state : Option StateRow) : Option Bool :=
  sqlAnd (sqlIsNotNull (old_state.map StateRow.state_id))
    (sqlAnd (sqlNe s.state (old_state.bind StateRow.state))
      (sqlIsNotNull s.state))

/-- `_apply_event_entity_id_matchers`: OR over
`Events.event_data.like(p) | EventData.shared_data.like(p)` for each
entity id's JSON pattern. -/
def _apply_event_entity_id_matchers (entity_ids : List String)
    (event_data shared_data : Option String) : Option Bool :=
  entity_ids.foldr
    (fun entity_id acc =>
      sqlOr (sqlLike event_data (ENTITY_ID_JSON_TEMPLATE entity_id))
        (sqlOr (sqlLike shared_data (ENTITY_ID_JSON_TEMPLATE entity_id)) acc))
    (some false)

/-! ## The selects -/

/-- The full WHERE clause of `_select_states` on one `States` row:
time window on `last_updated` (both bounds strict), the missing-state
matcher over the outer-joined old state, the continuous-entity matcher,
and `last_updated == last_changed`. -/
def _select_states_pred (db : DB) (start_day end_day : Int) (s : StateRow) : Bool :=
  (start_day < s.last_updated && s.last_updated < end_day)
    && sqlTrue (_missing_state_matcher s (lookupOldState db s.old_state_id))
    && sqlTrue (_not_continuous_entity_matcher (some s.entity_id) s.attributes
        (lookupSharedAttrs db s.attributes_id))
    && (s.last_updated = s.last_changed)

/-- `_select_states`: the states table, filtered by
`_select_states_pred` and projected to event-shaped rows. -/
def _select_states (db : DB) (start_day end_day : Int) : List LogRow :=
  (db.states.filter (_select_states_pred db start_day end_day)).map (stateLogRow db)

/-- The WHERE clause of `_select_events_without_states`: strict time
window on `time_fired` and `event_type IN event_types`. -/
def _select_events_pred (start_day end_day : Int) (event_types : List String)
    (e : EventRow) : Bool :=
  (start_day < e.time_fired && e.time_fired < end_day)
    && event_types.contains e.event_type

/-- `_select_events_without_states`: events in the window of the given
types, joined with their shared data, with NULL state columns. -/
def _select_events_without_states (db : DB) (start_day end_day : Int)
    (event_types : List String) : List LogRow :=
  (db.events.filter (_select_events_pred start_day end_day event_types)).map
    (eventLogRow db false)

/-- `_select_events_context_id_subquery`: context ids of events in the
window of the given types (joined with shared data). -/
def _select_events_context_id_subquery (db : DB) (start_day end_day : Int)
    (event_types : List String) : List (Option String × Option String × Option String) :=
  (db.events.filter (_select_events_pred start_day end_day event_types)).map
    fun e => (e.context_id, e.event_data, lookupEventData db e.data_id)

/-- `_select_entity_context_ids_sub_query`: context ids of window events
whose payload LIKE-matches the entity pattern, unioned with context ids
of the entity's window states. -/
def _select_entity_context_ids_sub_query (db : DB) (start_day end_day : Int)
    (event_types : List String) (entity_id : String) (entity_id_like : String) :
    List (Option String) :=
  ((_select_events_context_id_subquery db start_day end_day event_types).filter
    (fun r => sqlTrue (sqlOr (sqlLike r.2.1 entity_id_like) (sqlLike r.2.2 entity_id_like)))).map
      (fun r => r.1)
  ++ ((db.states.filter fun s =>
        (start_day < s.last_updated && s.last_updated < end_day)
          && s.entity_id = entity_id).map StateRow.context_id)

/-- `_select_entities_context_ids_sub_query`: as above but LIKE-matching
every entity id of the list (and `entity_id IN entity_ids` on states). -/
def _select_entities_context_ids_sub_query (db : DB) (start_day end_day : Int)
    (event_types : List String) (entity_ids : List String) : List (Option String) :=
  ((_select_events_context_id_subquery db start_day end_day event_types).filter
    (fun r => sqlTrue (_apply_event_entity_id_matchers entity_ids r.2.1 r.2.2))).map
      (fun r => r.1)
  ++ ((db.states.filter fun s =>
        (start_day < s.last_updated && s.last_updated < end_day)
          && entity_ids.contains s.entity_id).map StateRow.context_id)

/-- `_select_events_context_only`: all events (no window, no type
filter), joined with shared data, marked `context_only`. -/
def _select_events_context_only (db : DB) : List LogRow :=
  db.events.map (eventLogRow db true)

/-- `ORDER BY Events.time_fired`. -/
def orderByTimeFired (rows : List LogRow) : List LogRow :=
  rows.mergeSort fun a b => a.time_fired ≤ b.time_fired

/-- `_single_entity_stmt`: window events whose payload matches the
entity pattern, unioned with the entity's qualifying state rows and the
context-only events whose context id the sub-query yields. -/
def _single_entity_stmt (db : DB) (start_day end_day : Int) (event_types : List String)
    (entity_id : String) (entity_id_like : String) : List LogRow :=
  orderByTimeFired
    (((db.events.filter fun e =>
        _select_events_pred start_day end_day event_types e
          && sqlTrue (sqlOr (sqlLike e.event_data entity_id_like)
              (sqlLike (lookupEventData db e.data_id) entity_id_like))).map
        (eventLogRow db false))
      ++ ((db.states.filter fun s =>
            _select_states_pred db start_day end_day s && s.entity_id = entity_id).map
          (stateLogRow db))
      ++ (db.events.filter fun e =>
            sqlTrue (sqlInList e.context_id
              (_select_entity_context_ids_sub_query db start_day end_day event_types
                entity_id entity_id_like))).map (eventLogRow db true))

/-- `_entities_stmt`: as the single-entity statement but with the
per-entity-id LIKE matchers and `entity_id IN entity_ids` on states. -/
def _entities_stmt (db : DB) (start_day end_day : Int) (event_types : List String)
    (entity_ids : List String) : List LogRow :=
  orderByTimeFired
    (((db.events.filter fun e =>
        _select_events_pred start_day end_day event_types e
          && sqlTrue (_apply_event_entity_id_matchers entity_ids e.event_data
              (lookupEventData db e.data_id))).map
        (eventLogRow db false))
      ++ ((db.states.filter fun s =>
            _select_states_pred db start_day end_day s && entity_ids.contains s.entity_id).map
          (stateLogRow db))
      ++ (db.events.filter fun e =>
            sqlTrue (sqlInList e.context_id
              (_select_entities_context_ids_sub_query db start_day end_day event_types
                entity_ids))).map (eventLogRow db true))

/-- `_legacy_select_events_context_id`: events outer-joined with states
on `Events.event_id == States.event_id`, with the state-side WHERE
clauses (`last_updated == last_changed`, the continuous matcher) in SQL
three-valued logic — an unmatched outer join leaves them NULL, so such
events are dropped. -/
def _legacy_select_events_context_id (db : DB) (start_day end_day : Int)
    (context_id : String) : List LogRow :=
  (db.events.filter fun e =>
      let st := db.states.find? fun s => s.event_id = some e.event_id
      sqlTrue (sqlEq (st.map StateRow.last_updated) (st.map StateRow.last_changed))
        && sqlTrue (_not_continuous_entity_matcher (st.map StateRow.entity_id)
            (st.bind StateRow.attributes)
            (lookupSharedAttrs db (st.bind StateRow.attributes_id)))
        && (start_day < e.time_fired && e.time_fired < end_day)
        && e.context_id = some context_id).map
    fun e =>
      let st := db.states.find? fun s => s.event_id = some e.event_id
      { event_id := some e.event_id
        event_type := some e.event_type
        event_data := e.event_data
        time_fired := e.time_fired
        context_id := e.context_id
        context_user_id := e.context_user_id
        context_parent_id := e.context_parent_id
        shared_data := none
        state_id := st.map StateRow.state_id
        state := st.bind StateRow.state
        entity_id := st.map StateRow.entity_id
        attributes := st.bind StateRow.attributes
        shared_attrs := lookupSharedAttrs db (st.bind StateRow.attributes_id)
        context_only := false }

/-- An entity filter (`Filters.entity_filter()`): a SQL predicate over
the `States.entity_id` column. -/
def EntityFilter : Type := Option String → Option Bool

/-- The `Filters` object of homeassistant.components.history: only its
`entity_filter()` accessor is consumed here. -/
structure Filters where
  entity_filter : EntityFilter

/-- `_all_stmt`: all window events of the given types; when a context id
is given, restrict to it and add matching state rows plus the legacy
join; otherwise union with (optionally filtered) state rows. -/
def _all_stmt (db : DB) (start_day end_day : Int) (event_types : List String)
    (entity_filter : Option EntityFilter := none) (context_id : Option String := none) :
    List LogRow :=
  orderByTimeFired
    (match context_id with
     | some cid =>
        ((_select_events_without_states db start_day end_day event_types).filter fun r =>
            sqlTrue (sqlEq r.context_id (some cid)))
          ++ ((_select_states db start_day end_day).filter fun r =>
              sqlTrue (sqlEq r.context_id (some cid)))
          ++ _legacy_select_events_context_id db start_day end_day cid
     | none =>
        match entity_filter with
        | some f =>
            _select_events_without_states db start_day end_day event_types
              ++ ((_select_states db start_day end_day).filter fun r => sqlTrue (f r.entity_id))
        | none =>
            _select_events_without_states db start_day end_day event_types
              ++ _select_states db start_day end_day)

/-- `statement_for_request`: dispatch on the entity-id argument.  The
Python guard `if not entity_ids` is taken both for `None` and for the
empty list; `len(entity_ids) > 1` picks the multi-entity statement, and
otherwise the single-entity statement is built from `entity_ids[0]`. -/
def statement_for_request (db : DB) (start_day end_day : Int)
    (event_types : List String) (entity_ids : Option (List String) := none)
    (filters : Option Filters := none) (context_id : Option String := none) :
    List LogRow :=
  match entity_ids with
  | none =>
      _all_stmt db start_day end_day event_types (filters.map Filters.entity_filter) context_id
  | some [] =>
      _all_stmt db start_day end_day event_types (filters.map Filters.entity_filter) context_id
  | some [entity_id] =>
      _single_entity_stmt db start_day end_day event_types entity_id
        (ENTITY_ID_JSON_TEMPLATE entity_id)
  | some entity_ids =>
      _entities_stmt db start_day end_day event_types entity_ids

/-! ## The 1-Wire config flow (onewire/config_flow.py)

Form schemas (default values, choice lists) are presentation-only and
not modelled; a step result is the framework's `FlowResult` protocol:
show a form (with inline errors), create an entry, or abort. -/

structure OWDeviceDescription where
  id : String
  family : String
deriving DecidableEq, Repr

/-- Modelled from the spec: `DEVICE_SUPPORT_OPTIONS` lives in the
integration's const.py, which is not under src/; per the spec only
devices of family "28" support options. -/
def DEVICE_SUPPORT_OPTIONS : List String := ["28"]

/-- Modelled from the spec: the option key for the precision setting
(`OPTION_ENTRY_SENSOR_PRECISION` in const.py, not under src/); only its
identity as a map key matters here. -/
def OPTION_ENTRY_SENSOR_PRECISION : String := "precision"

/-- A per-device setting-value map (setting name to chosen value). -/
abbrev DeviceSettings := List (String × String)

/-- The `OPTION_ENTRY_DEVICE_OPTIONS` map: device id to its settings. -/
abbrev DeviceOptionsMap := List (String × DeviceSettings)

/-- The persisted options bag.  The flow only ever touches the
`OPTION_ENTRY_DEVICE_OPTIONS` key; an absent key is `none`. -/
structure EntryOptions where
  device_options : Option DeviceOptionsMap
deriving DecidableEq, Repr

/-- The empty options bag (`self.options = {}`). -/
def emptyOptions : EntryOptions := { device_options := none }

structure HostPort where
  host : String
  port : Int
deriving DecidableEq, Repr

/-- Step result of the setup wizard (`async_step_user`). -/
inductive ConfigFlowResult where
  | showForm (step_id : String) (errors : List (String × String))
  | createEntry (title : String) (data : HostPort)
  | abort (reason : String)
deriving DecidableEq, Repr

/-- Step result of the options wizard. -/
inductive OptionsFlowResult where
  | showForm (step_id : String) (errors : List (String × String))
  | createEntry (title : String) (data : EntryOptions)
  | abort (reason : String)
deriving DecidableEq, Repr

/-- Outcome of the connectivity probe (`hub.connect` inside
`validate_input`, which raises `CannotConnect` on failure). -/
inductive ProbeOutcome where
  | ok
  | cannotConnect
deriving DecidableEq, Repr

/-- `async_step_user`.  The probe is an oracle argument; the returned
`Bool` records whether the probe was invoked.  `_async_abort_entries_match`
is modelled from the spec (framework code, not under src/): abort with
reason "already_configured" when an already-persisted entry matches both
host and port.  `self.onewire_config` only ever accumulates this single
step's input, so the created entry's data is the submitted host/port. -/
def async_step_user (existing_entries : List HostPort) (user_input : Option HostPort)
    (probe : HostPort → ProbeOutcome) : ConfigFlowResult × Bool :=
  match user_input with
  | none => (.showForm "user" [], false)
  | some ui =>
      if existing_entries.any fun e => e.host = ui.host && e.port = ui.port then
        (.abort "already_configured", false)
      else
        match probe ui with
        | .cannotConnect => (.showForm "user" [("base", "cannot_connect")], true)
        | .ok => (.createEntry ui.host ui, true)

/-- The mutable per-flow state of `OnewireOptionsFlowHandler`. -/
structure OnewireOptionsFlowHandler where
  options : EntryOptions
  configurable_devices : List (String × OWDeviceDescription)
  devices_to_configure : List (String × OWDeviceDescription)
  current_device : String
deriving DecidableEq, Repr

/-- `_update_options`: commit the accumulated options bag. -/
def _update_options (flow : OnewireOptionsFlowHandler) : OptionsFlowResult :=
  .createEntry "" flow.options

/-- Key-preserving insert-or-replace on an association list, appending a
fresh key at the end — the order behaviour of a Python dict write. -/
def alistSet {α : Type} (m : List (String × α)) (k : String) (v : α) : List (String × α) :=
  match m with
  | [] => [(k, v)]
  | (k', v') :: rest => if k' = k then (k, v) :: rest else (k', v') :: alistSet rest k v

/-- `_update_device_options`: `setdefault` the device-options map and the
per-device settings map, then write the precision value only when the
device family is "28".  In Python
`self.configurable_devices[self.current_device]` raises `KeyError` when
absent; the flow only reaches this step with `current_device` bound to a
configurable device, so the `none` branch is unreachable and is modelled
as leaving the handler unchanged. -/
def _update_device_options (flow : OnewireOptionsFlowHandler) (precision : String) :
    OnewireOptionsFlowHandler :=
  let options := flow.options.device_options.getD []
  match flow.configurable_devices.lookup flow.current_device with
  | none => flow
  | some description =>
      let device_options := (options.lookup description.id).getD []
      let device_options :=
        if description.family = "28" then
          alistSet device_options OPTION_ENTRY_SENSOR_PRECISION precision
        else device_options
      { flow with
          options := { device_options := some (alistSet options description.id device_options) } }

/-- `async_step_configure_device`.  A submission (`some precision`)
updates the current device's options and either commits (queue empty) or
re-enters the step with no input; no input pops the last pending device
(`dict.popitem` pops in LIFO order) and shows its form.  `popitem` on an
empty dict raises `KeyError` in Python; that branch is unreachable in
the flow and is modelled as showing the form unchanged. -/
def async_step_configure_device (flow : OnewireOptionsFlowHandler)
    (user_input : Option String) : OnewireOptionsFlowHandler × OptionsFlowResult :=
  match user_input with
  | some precision =>
      let flow := _update_device_options flow precision
      if flow.devices_to_configure.isEmpty then (flow, _update_options flow)
      else async_step_configure_device flow none
  | none =>
      match flow.devices_to_configure.getLast? with
      | some (name, _) =>
          ({ flow with
              current_device := name
              devices_to_configure := flow.devices_to_configure.dropLast },
            .showForm "configure_device" [])
      | none => (flow, .showForm "configure_device" [])
termination_by user_input.elim 0 fun _ => 1
decreasing_by simp

/-- The submission of the device-selection form: the clear-options
checkbox and the multi-select of device long names. -/
structure DeviceSelectionInput where
  clear_device_options : Bool
  device_selection : Option (List String)
deriving DecidableEq, Repr

/-- `async_step_device_selection`.  Clearing resets the options bag and
commits immediately; an empty selection re-shows the form with a
validation error; otherwise the selected configurable devices become the
pending queue and per-device configuration starts.  (Selected names are
always keys of `configurable_devices` — they come from the multi-select —
so the `filterMap` lookup never drops a name in a reachable flow.) -/
def async_step_device_selection (flow : OnewireOptionsFlowHandler)
    (user_input : Option DeviceSelectionInput) :
    OnewireOptionsFlowHandler × OptionsFlowResult :=
  match user_input with
  | none => (flow, .showForm "device_selection" [])
  | some ui =>
      if ui.clear_device_options then
        let flow := { flow with options := emptyOptions }
        (flow, _update_options flow)
      else
        match ui.device_selection.getD [] with
        | [] => (flow, .showForm "device_selection" [("base", "device_not_selected")])
        | selected =>
            let flow := { flow with
              devices_to_configure :=
                selected.filterMap fun name =>
                  (flow.configurable_devices.lookup name).map fun d => (name, d) }
            async_step_configure_device flow none

/-- `_get_device_long_name`: a user-assigned registry name decorates the
raw device id; otherwise the raw id is used.  The device registry is
abstracted as the `name_by_user` oracle. -/
def _get_device_long_name (name_by_user : String → Option String)
    (current_device : String) : String :=
  match name_by_user current_device with
  | some name => name ++ " (" ++ current_device ++ ")"
  | none => current_device

/-- `async_step_init`: read the live controller's device list; abort
when it is empty; otherwise record the supported-family devices under
their long names as the configurable set and enter device selection
with no input (which shows the selection form). -/
def async_step_init (flow : OnewireOptionsFlowHandler)
    (controller_devices : List OWDeviceDescription)
    (name_by_user : String → Option String) :
    OnewireOptionsFlowHandler × OptionsFlowResult :=
  if controller_devices.isEmpty then
    (flow, .abort "No configurable devices found.")
  else
    let flow := { flow with
      configurable_devices :=
        (controller_devices.filter fun d => DEVICE_SUPPORT_OPTIONS.contains d.family).map
          fun d => (_get_device_long_name name_by_user d.id, d) }
    async_step_device_selection flow none

/-! ## Concrete fixtures used by witness theorems -/

/-- A prior state record of a sensor entity. -/
def exOldState : StateRow :=
  { state_id := 1, entity_id := "sensor.temp", state := some "20",
    attributes := none, attributes_id := none,
    last_changed := 2, last_updated := 2, old_state_id := none, event_id := none,
    context_id := some "ctx1", context_user_id := none, context_parent_id := none }

/-- A sensor state transition whose attribute payload has no
measurement-unit key. -/
def exState : StateRow :=
  { state_id := 2, entity_id := "sensor.temp", state := some "21",
    attributes := some "\"friendly_name\":\"T\"", attributes_id := none,
    last_changed := 5, last_updated := 5, old_state_id := some 1, event_id := none,
    context_id := some "ctx2", context_user_id := none, context_parent_id := none }

/-- An event row of a light entity inside the window `(0, 10)`. -/
def exEvent : EventRow :=
  { event_id := 7, event_type := "call_service",
    event_data := some "\"entity_id\":\"light.kitchen\"",
    time_fired := 4, context_id := some "ctx3", context_user_id := none,
    context_parent_id := none, data_id := none }

/-- A small concrete database with one event and one state transition. -/
def exDB : DB :=
  { events := [exEvent], event_data := [], states := [exOldState, exState],
    state_attributes := [] }

/-- A concrete options-flow state: the current device is a supported
(family "28") device and one unsupported device is still pending. -/
def exFlow : OnewireOptionsFlowHandler :=
  { options := emptyOptions
    configurable_devices :=
      [("dev28", ⟨"28.1111", "28"⟩), ("dev29", ⟨"29.2222", "29"⟩)]
    devices_to_configure := [("dev29", ⟨"29.2222", "29"⟩)]
    current_device := "dev28" }

/-- The entity id appears, within the window, in no event payload
(per the JSON LIKE pattern the query uses) and in no state record. -/
abbrev entityAbsent (db : DB) (start_day end_day : Int) (entity_id : String) : Prop :=
  (∀ e ∈ db.events, start_day < e.time_fired → e.time_fired < end_day →
    sqlTrue (sqlOr (sqlLike e.event_data (ENTITY_ID_JSON_TEMPLATE entity_id))
      (sqlLike (lookupEventData db e.data_id) (ENTITY_ID_JSON_TEMPLATE entity_id))) = false)
  ∧ ∀ s ∈ db.states, start_day < s.last_updated → s.last_updated < end_day →
      s.entity_id ≠ entity_id

/-! ## Claims about the logbook statement builder -/

/-- C9: calling `statement_for_request` with an empty entity-id list
produces the same statement as calling it with no entity ids at all:
both take the all-entities branch, honouring the declarative filter and
the context id. -/
theorem c9_empty_entity_ids_take_all_branch (db : DB) (start_day end_day : Int)
    (event_types : List String) (filters : Option Filters) (context_id : Option String) :
    statement_for_request db start_day end_day event_types (some []) filters context_id
        = statement_for_request db start_day end_day event_types none filters context_id
      ∧ statement_for_request db start_day end_day event_types (some []) filters context_id
        = _all_stmt db start_day end_day event_types (filters.map Filters.entity_filter)
            context_id :=
  ⟨rfl, rfl⟩

/-- C10: with no entity ids and both a context id and a declarative
filter supplied, the built statement is the context-id-restricted query
built with no filter at all — the context-id branch takes precedence and
the filter predicate has no effect. -/
theorem c10_context_id_branch_ignores_filter (db : DB) (start_day end_day : Int)
    (event_types : List String) (f : Filters) (cid : String) :
    statement_for_request db start_day end_day event_types none (some f) (some cid)
      = _all_stmt db start_day end_day event_types none (some cid) :=
  rfl

/-! ## Claims about the 1-Wire wizard -/

/-- C2: the options wizard's init step reads the device list from the
live controller; whenever that list is empty it terminates with an abort
result carrying a reason and never shows the device-selection form. -/
theorem c2_init_no_devices_aborts (flow : OnewireOptionsFlowHandler)
    (name_by_user : String → Option String) :
    (async_step_init flow [] name_by_user).2
        = OptionsFlowResult.abort "No configurable devices found."
      ∧ ∀ step_id errors, (async_step_init flow [] name_by_user).2
        ≠ OptionsFlowResult.showForm step_id errors := by
  refine ⟨rfl, ?_⟩
  intro step_id errors
  simp [async_step_init]

/-- C3: a user-step submission whose host and port both equal those of
an already-persisted entry is rejected with an abort before any
connectivity probe: the probe-invoked flag is false and the result does
not depend on the probe at all. -/
theorem c3_duplicate_host_port_rejected_before_probe (existing : List HostPort)
    (ui : HostPort) (probe : HostPort → ProbeOutcome) (entry : HostPort)
    (hmem : entry ∈ existing) (hhost : entry.host = ui.host) (hport : entry.port = ui.port) :
    async_step_user existing (some ui) probe
      = (ConfigFlowResult.abort "already_configured", false) := by
  have hdup : (existing.any fun e => e.host = ui.host && e.port = ui.port) = true :=
    List.any_eq_true.mpr ⟨entry, hmem, by simp [hhost, hport]⟩
  simp [async_step_user, hdup]

/-- Witness for C3 at a concrete duplicate submission. -/
theorem c3_witness :
    async_step_user [⟨"1.2.3.4", 4304⟩] (some ⟨"1.2.3.4", 4304⟩)
        (fun _ => ProbeOutcome.ok)
      = (ConfigFlowResult.abort "already_configured", false) :=
  c3_duplicate_host_port_rejected_before_probe [⟨"1.2.3.4", 4304⟩] ⟨"1.2.3.4", 4304⟩
    (fun _ => ProbeOutcome.ok) ⟨"1.2.3.4", 4304⟩ (by decide) rfl rfl

/-- C5: submitting the clear-options flag at the device-selection step
terminates the flow immediately with a create-entry result carrying an
empty options bag, whatever the prior options state and prior device
selection. -/
theorem c5_clear_options_creates_empty_entry (flow : OnewireOptionsFlowHandler)
    (selection : Option (List String)) :
    async_step_device_selection flow (some ⟨true, selection⟩)
      = ({ flow with options := emptyOptions },
          OptionsFlowResult.createEntry "" emptyOptions) :=
  rfl

/-- C1: in the WHERE clause of the state-change branch, for a state row
that passes the window, missing-state and transition checks and whose
attribute payload lives in exactly one of the two attribute columns
(per-record `attributes` or shared `shared_attrs`): a continuous-domain
(proximity/sensor) row is kept iff the payload lacks the
measurement-unit attribute key, and a row of any other domain is kept
regardless of the key. -/
theorem c1_continuous_uom_heuristic (db : DB) (start_day end_day : Int)
    (s : StateRow) (payload : String)
    (hwin : start_day < s.last_updated ∧ s.last_updated < end_day)
    (hmiss : sqlTrue (_missing_state_matcher s (lookupOldState db s.old_state_id)) = true)
    (hlc : s.last_updated = s.last_changed)
    (hpayload : (s.attributes = some payload ∧ lookupSharedAttrs db s.attributes_id = none)
      ∨ (s.attributes = none ∧ lookupSharedAttrs db s.attributes_id = some payload)) :
    (sqlTrue (_continuous_domain_matcher (some s.entity_id)) = true →
      (_select_states_pred db start_day end_day s = true
        ↔ likeMatch UNIT_OF_MEASUREMENT_JSON_LIKE.toList payload.toList = false))
    ∧ (sqlTrue (_continuous_domain_matcher (some s.entity_id)) = false →
      _select_states_pred db start_day end_day s = true) := by
  obtain ⟨hw1, hw2⟩ := hwin
  cases hL1 : likeMatch "proximity.%".toList s.entity_id.toList <;>
  cases hL2 : likeMatch "sensor.%".toList s.entity_id.toList <;>
  cases hU : likeMatch UNIT_OF_MEASUREMENT_JSON_LIKE.toList payload.toList <;>
  rcases hpayload with ⟨ha, hsh⟩ | ⟨ha, hsh⟩ <;>
  simp_all [_select_states_pred, _not_continuous_entity_matcher,
    _not_continuous_domain_matcher, _continuous_domain_matcher,
    _not_uom_attributes_matcher, CONTINUOUS_ENTITY_ID_LIKE, sqlLike, sqlOr, sqlAnd,
    sqlNot, sqlTrue, hmiss, hlc]

/-- Witness for C1: a concrete sensor transition without the
measurement-unit key is kept by the state-change WHERE clause. -/
theorem c1_witness :
    _select_states_pred exDB 0 10 exState = true
      ↔ likeMatch UNIT_OF_MEASUREMENT_JSON_LIKE.toList "\"friendly_name\":\"T\"".toList
          = false :=
  (c1_continuous_uom_heuristic exDB 0 10 exState "\"friendly_name\":\"T\""
    (by decide) (by decide) (by decide) (Or.inl (by decide))).1 (by decide)

/-- The missing-state matcher passes exactly on rows with a joined old
state and a non-null value differing from the old value. -/
theorem missing_state_matcher_spec (s : StateRow) (old? : Option StateRow)
    (h : sqlTrue (_missing_state_matcher s old?) = true) :
    ∃ old, old? = some old ∧ s.state ≠ none ∧ s.state ≠ old.state := by
  cases old? with
  | none => simp [_missing_state_matcher, sqlIsNotNull, sqlAnd, sqlTrue, sqlNe] at h
  | some old =>
    cases hst : s.state with
    | none => simp_all [_missing_state_matcher, sqlIsNotNull, sqlAnd, sqlTrue, sqlNe]
    | some v =>
      cases hos : old.state with
      | none => simp_all [_missing_state_matcher, sqlIsNotNull, sqlAnd, sqlTrue, sqlNe]
      | some w =>
        have hne : v ≠ w := by
          by_cases hvw : v = w <;>
            simp_all [_missing_state_matcher, sqlIsNotNull, sqlAnd, sqlTrue, sqlNe]
        exact ⟨old, rfl, by simp [hst], by simp [hst, hos, hne]⟩

/-- C4: every row produced by the state-change select comes from a state
record that has a prior-state record, a non-null value that differs from
the prior value, and equal last-updated and last-changed timestamps —
records with no prior state, an identical prior value, a null value, or
an attribute-only update are excluded. -/
theorem c4_state_change_exclusions (db : DB) (start_day end_day : Int) (r : LogRow)
    (hr : r ∈ _select_states db start_day end_day) :
    ∃ s, s ∈ db.states ∧ r = stateLogRow db s
      ∧ (∃ old, lookupOldState db s.old_state_id = some old ∧ s.state ≠ none
          ∧ s.state ≠ old.state)
      ∧ s.last_updated = s.last_changed := by
  simp only [_select_states, List.mem_map, List.mem_filter] at hr
  obtain ⟨s, ⟨hs, hpred⟩, heq⟩ := hr
  simp only [_select_states_pred, Bool.and_eq_true, decide_eq_true_eq] at hpred
  obtain ⟨⟨⟨_hwin, hmiss⟩, _hcont⟩, hlc⟩ := hpred
  exact ⟨s, hs, heq.symm, missing_state_matcher_spec s _ hmiss, hlc⟩

/-- Witness for C4 at a concrete included state row. -/
theorem c4_witness :
    ∃ s, s ∈ exDB.states ∧ stateLogRow exDB exState = stateLogRow exDB s
      ∧ (∃ old, lookupOldState exDB s.old_state_id = some old ∧ s.state ≠ none
          ∧ s.state ≠ old.state)
      ∧ s.last_updated = s.last_changed :=
  c4_state_change_exclusions exDB 0 10 (stateLogRow exDB exState) (by decide)

/-- Writing a key into an association list makes it readable back. -/
theorem alistSet_lookup_self {α : Type} (m : List (String × α)) (k : String) (v : α) :
    (alistSet m k v).lookup k = some v := by
  induction m with
  | nil => simp [alistSet, List.lookup]
  | cons hd tl ih =>
    obtain ⟨k', v'⟩ := hd
    by_cases hk : k' = k
    · simp [alistSet, hk, List.lookup]
    · have hne : (k == k') = false := beq_eq_false_iff_ne.mpr (Ne.symm hk)
      simp [alistSet, hk, List.lookup, hne, ih]

/-- `_update_device_options` only touches the options bag; the pending
queue, the configurable set and the current device are unchanged. -/
theorem update_device_options_frame (flow : OnewireOptionsFlowHandler) (p : String) :
    (_update_device_options flow p).devices_to_configure = flow.devices_to_configure
      ∧ (_update_device_options flow p).configurable_devices = flow.configurable_devices
      ∧ (_update_device_options flow p).current_device = flow.current_device := by
  unfold _update_device_options
  cases flow.configurable_devices.lookup flow.current_device <;> simp

/-- Entering the configure-device step with no input pops exactly one
pending device and shows its form. -/
theorem configure_device_pop (flow : OnewireOptionsFlowHandler)
    (hne : flow.devices_to_configure ≠ []) :
    ∃ st', async_step_configure_device flow none
        = (st', OptionsFlowResult.showForm "configure_device" [])
      ∧ st'.devices_to_configure.length = flow.devices_to_configure.length - 1 := by
  cases hgl : flow.devices_to_configure.getLast? with
  | none => exact absurd (List.getLast?_eq_none_iff.mp hgl) hne
  | some x =>
    obtain ⟨name, d⟩ := x
    refine ⟨{ flow with
        current_device := name
        devices_to_configure := flow.devices_to_configure.dropLast }, ?_, ?_⟩
    · simp [async_step_configure_device, hgl]
    · simp [List.length_dropLast]

/-- C8: in the per-device configuration step, a submission for a device
whose family is not "28" leaves that device's stored setting-value map
exactly as it was (in particular without a precision key), while a
family-"28" submission stores the precision value; each form shown pops
one pending device, a submission with pending devices re-shows the form
with one fewer pending, and a submission with an empty queue commits the
accumulated options. -/
theorem c8_per_device_configuration (flow : OnewireOptionsFlowHandler)
    (precision : String) (description : OWDeviceDescription)
    (hcur : flow.configurable_devices.lookup flow.current_device = some description) :
    (description.family ≠ "28" →
      ((_update_device_options flow precision).options.device_options.getD []).lookup
          description.id
        = some (((flow.options.device_options.getD []).lookup description.id).getD []))
    ∧ (description.family = "28" →
      ∃ settings,
        ((_update_device_options flow precision).options.device_options.getD []).lookup
            description.id = some settings
          ∧ settings.lookup OPTION_ENTRY_SENSOR_PRECISION = some precision)
    ∧ (flow.devices_to_configure ≠ [] →
      ∃ st', async_step_configure_device flow none
          = (st', OptionsFlowResult.showForm "configure_device" [])
        ∧ st'.devices_to_configure.length = flow.devices_to_configure.length - 1)
    ∧ (flow.devices_to_configure = [] →
      (async_step_configure_device flow (some precision)).2
        = OptionsFlowResult.createEntry "" (_update_device_options flow precision).options)
    ∧ (flow.devices_to_configure ≠ [] →
      ∃ st', async_step_configure_device flow (some precision)
          = (st', OptionsFlowResult.showForm "configure_device" [])
        ∧ st'.devices_to_configure.length = flow.devices_to_configure.length - 1) := by
  have hq := (update_device_options_frame flow precision).1
  refine ⟨?_, ?_, configure_device_pop flow, ?_, ?_⟩
  · intro hfam
    simp [_update_device_options, hcur, hfam, alistSet_lookup_self]
  · intro hfam
    refine ⟨alistSet (((flow.options.device_options.getD []).lookup description.id).getD [])
        OPTION_ENTRY_SENSOR_PRECISION precision, ?_, alistSet_lookup_self _ _ _⟩
    simp [_update_device_options, hcur, hfam, alistSet_lookup_self]
  · intro hempty
    simp [async_step_configure_device, hq, hempty, _update_options]
  · intro hne
    have hne' : (_update_device_options flow precision).devices_to_configure ≠ [] := by
      rw [hq]; exact hne
    obtain ⟨st', heq, hlen⟩ := configure_device_pop _ hne'
    have hemp : (_update_device_options flow precision).devices_to_configure.isEmpty
        = false := by
      simpa [List.isEmpty_iff] using hne'
    refine ⟨st', ?_, by rw [hlen, hq]⟩
    rw [← heq]
    simp [async_step_configure_device, hemp]

/-- Witness for C8 at a concrete flow state whose current device has the
supported family and with one pending device. -/
theorem c8_witness :
    ((⟨"28.1111", "28"⟩ : OWDeviceDescription).family ≠ "28" →
      ((_update_device_options exFlow "temperature").options.device_options.getD []).lookup
          "28.1111"
        = some (((exFlow.options.device_options.getD []).lookup "28.1111").getD []))
    ∧ ((⟨"28.1111", "28"⟩ : OWDeviceDescription).family = "28" →
      ∃ settings,
        ((_update_device_options exFlow "temperature").options.device_options.getD
            []).lookup "28.1111" = some settings
          ∧ settings.lookup OPTION_ENTRY_SENSOR_PRECISION = some "temperature")
    ∧ (exFlow.devices_to_configure ≠ [] →
      ∃ st', async_step_configure_device exFlow none
          = (st', OptionsFlowResult.showForm "configure_device" [])
        ∧ st'.devices_to_configure.length = exFlow.devices_to_configure.length - 1)
    ∧ (exFlow.devices_to_configure = [] →
      (async_step_configure_device exFlow (some "temperature")).2
        = OptionsFlowResult.createEntry ""
            (_update_device_options exFlow "temperature").options)
    ∧ (exFlow.devices_to_configure ≠ [] →
      ∃ st', async_step_configure_device exFlow (some "temperature")
          = (st', OptionsFlowResult.showForm "configure_device" [])
        ∧ st'.devices_to_configure.length = exFlow.devices_to_configure.length - 1) :=
  c8_per_device_configuration exFlow "temperature" ⟨"28.1111", "28"⟩ (by decide)

/-- A SQL `OR` is TRUE exactly when one of its operands is TRUE. -/
theorem sqlTrue_sqlOr (x y : Option Bool) :
    sqlTrue (sqlOr x y) = (sqlTrue x || sqlTrue y) := by
  rcases x with _ | _ | _ <;> rcases y with _ | _ | _ <;> rfl

/-- The per-entity-id OR of LIKE matchers is TRUE exactly when it is
TRUE for some entity id of the list. -/
theorem sqlTrue_apply_matchers (ids : List String) (ed sd : Option String) :
    sqlTrue (_apply_event_entity_id_matchers ids ed sd)
      = ids.any fun eid =>
          sqlTrue (sqlOr (sqlLike ed (ENTITY_ID_JSON_TEMPLATE eid))
            (sqlLike sd (ENTITY_ID_JSON_TEMPLATE eid))) := by
  induction ids with
  | nil => rfl
  | cons hd tl ih =>
    simp only [_apply_event_entity_id_matchers, List.foldr_cons, List.any_cons] at ih ⊢
    rw [sqlTrue_sqlOr, sqlTrue_sqlOr, ih, sqlTrue_sqlOr, Bool.or_assoc]

/-- An `IN` against an empty sub-select is never TRUE. -/
theorem sqlInList_nil_not_true (x : Option String) :
    sqlTrue (sqlInList x []) = false := by
  cases x <;> rfl

/-- C7: for an entity id that appears in no event payload and in no
state record within the window, the single-entity statement returns zero
rows, and the multi-entity statement for a set consisting only of such
ids returns zero rows — including zero context-only rows, since the
context-id sub-queries are empty. -/
theorem c7_absent_entity_zero_rows (db : DB) (start_day end_day : Int)
    (event_types : List String) (entity_id : String) (entity_ids : List String)
    (h1 : entityAbsent db start_day end_day entity_id)
    (h2 : ∀ eid ∈ entity_ids, entityAbsent db start_day end_day eid) :
    _single_entity_stmt db start_day end_day event_types entity_id
        (ENTITY_ID_JSON_TEMPLATE entity_id) = []
      ∧ _entities_stmt db start_day end_day event_types entity_ids = [] := by
  -- no window state of an absent entity
  have hstates : ∀ (eid : String), entityAbsent db start_day end_day eid →
      db.states.filter (fun s => _select_states_pred db start_day end_day s
        && s.entity_id = eid) = [] := by
    intro eid habs
    refine List.filter_eq_nil_iff.mpr fun s hs => ?_
    intro hbody
    rw [Bool.and_eq_true] at hbody
    obtain ⟨hpred, heq⟩ := hbody
    rw [decide_eq_true_eq] at heq
    simp only [_select_states_pred, Bool.and_eq_true, decide_eq_true_eq] at hpred
    exact habs.2 s hs hpred.1.1.1.1 hpred.1.1.1.2 heq
  have hstates_many : db.states.filter (fun s => _select_states_pred db start_day end_day s
      && entity_ids.contains s.entity_id) = [] := by
    refine List.filter_eq_nil_iff.mpr fun s hs => ?_
    intro hbody
    rw [Bool.and_eq_true] at hbody
    obtain ⟨hpred, hmem⟩ := hbody
    simp only [_select_states_pred, Bool.and_eq_true, decide_eq_true_eq] at hpred
    have hmem' : s.entity_id ∈ entity_ids := by simpa using hmem
    exact (h2 s.entity_id hmem').2 s hs hpred.1.1.1.1 hpred.1.1.1.2 rfl
  -- no window event mentioning an absent entity
  have hevents : ∀ (eid : String), entityAbsent db start_day end_day eid →
      db.events.filter (fun e => _select_events_pred start_day end_day event_types e
        && sqlTrue (sqlOr (sqlLike e.event_data (ENTITY_ID_JSON_TEMPLATE eid))
            (sqlLike (lookupEventData db e.data_id) (ENTITY_ID_JSON_TEMPLATE eid)))) = [] := by
    intro eid habs
    refine List.filter_eq_nil_iff.mpr fun e he => ?_
    intro hbody
    rw [Bool.and_eq_true] at hbody
    obtain ⟨hpred, hlike⟩ := hbody
    simp only [_select_events_pred, Bool.and_eq_true, decide_eq_true_eq] at hpred
    rw [habs.1 e he hpred.1.1 hpred.1.2] at hlike
    exact Bool.false_ne_true hlike
  have hevents_many : db.events.filter
      (fun e => _select_events_pred start_day end_day event_types e
        && sqlTrue (_apply_event_entity_id_matchers entity_ids e.event_data
            (lookupEventData db e.data_id))) = [] := by
    refine List.filter_eq_nil_iff.mpr fun e he => ?_
    intro hbody
    rw [Bool.and_eq_true] at hbody
    obtain ⟨hpred, hlike⟩ := hbody
    simp only [_select_events_pred, Bool.and_eq_true, decide_eq_true_eq] at hpred
    rw [sqlTrue_apply_matchers] at hlike
    obtain ⟨eid, hmem, hl⟩ := List.any_eq_true.mp hlike
    rw [(h2 eid hmem).1 e he hpred.1.1 hpred.1.2] at hl
    exact Bool.false_ne_true hl
  -- the context-id sub-queries are empty
  have hsubev : ∀ (p : Option String × Option String × Option String → Bool),
      (∀ e ∈ db.events, start_day < e.time_fired → e.time_fired < end_day →
        p (e.context_id, e.event_data, lookupEventData db e.data_id) = false) →
      ((_select_events_context_id_subquery db start_day end_day event_types).filter p)
        = [] := by
    intro p hp
    refine List.filter_eq_nil_iff.mpr fun r hr => ?_
    simp only [_select_events_context_id_subquery, List.mem_map, List.mem_filter] at hr
    obtain ⟨e, ⟨he, hpred⟩, rfl⟩ := hr
    simp only [_select_events_pred, Bool.and_eq_true, decide_eq_true_eq] at hpred
    rw [hp e he hpred.1.1 hpred.1.2]
    exact Bool.false_ne_true
  have hsubst : ∀ (eid : String), entityAbsent db start_day end_day eid →
      db.states.filter (fun s =>
        (start_day < s.last_updated && s.last_updated < end_day)
          && s.entity_id = eid) = [] := by
    intro eid habs
    refine List.filter_eq_nil_iff.mpr fun s hs => ?_
    intro hbody
    simp only [Bool.and_eq_true, decide_eq_true_eq] at hbody
    exact habs.2 s hs hbody.1.1 hbody.1.2 hbody.2
  have hsubst_many : db.states.filter (fun s =>
      (start_day < s.last_updated && s.last_updated < end_day)
        && entity_ids.contains s.entity_id) = [] := by
    refine List.filter_eq_nil_iff.mpr fun s hs => ?_
    intro hbody
    simp only [Bool.and_eq_true, decide_eq_true_eq] at hbody
    have hmem' : s.entity_id ∈ entity_ids := by simpa using hbody.2
    exact (h2 s.entity_id hmem').2 s hs hbody.1.1 hbody.1.2 rfl
  have hsub1 : _select_entity_context_ids_sub_query db start_day end_day event_types
      entity_id (ENTITY_ID_JSON_TEMPLATE entity_id) = [] := by
    unfold _select_entity_context_ids_sub_query
    rw [hsubev _ (fun e he hw1 hw2 => h1.1 e he hw1 hw2), hsubst entity_id h1]
    rfl
  have hsub2 : _select_entities_context_ids_sub_query db start_day end_day event_types
      entity_ids = [] := by
    unfold _select_entities_context_ids_sub_query
    rw [hsubst_many, hsubev]
    · rfl
    · intro e he hw1 hw2
      rw [sqlTrue_apply_matchers]
      refine List.any_eq_false.mpr fun eid hmem => ?_
      simp [(h2 eid hmem).1 e he hw1 hw2]
  constructor
  · unfold _single_entity_stmt
    rw [hevents entity_id h1, hstates entity_id h1, hsub1]
    simp [orderByTimeFired, sqlInList_nil_not_true]
  · unfold _entities_stmt
    rw [hevents_many, hstates_many, hsub2]
    simp [orderByTimeFired, sqlInList_nil_not_true]

/-- Witness for C7: a concrete database holding only other entities
yields empty single- and multi-entity statements. -/
theorem c7_witness :
    _single_entity_stmt exDB 0 10 ["call_service"] "switch.fan"
        (ENTITY_ID_JSON_TEMPLATE "switch.fan") = []
      ∧ _entities_stmt exDB 0 10 ["call_service"] ["switch.fan", "lock.door"] = [] :=
  c7_absent_entity_zero_rows exDB 0 10 ["call_service"] "switch.fan"
    ["switch.fan", "lock.door"] (by decide)
    (by intro eid hmem; fin_cases hmem <;> exact (by decide))

/-- Filtering a mapped list is mapping the list filtered on the composite. -/
theorem filter_map_comm {α β : Type} (f : α → β) (p : β → Bool) (l : List α) :
    (l.map f).filter p = (l.filter fun x => p (f x)).map f := by
  induction l with
  | nil => rfl
  | cons hd tl ih =>
    by_cases h : p (f hd) = true <;> simp [List.filter_cons, h, ih]

/-- Two disjoint filters whose union is a third filter split that
filter's multiset of results. -/
theorem filter_multiset_split {α : Type} (xs : List α) (p q r : α → Bool)
    (hdisj : ∀ x, ¬(p x = true ∧ q x = true))
    (hiff : ∀ x, r x = true ↔ (p x = true ∨ q x = true)) :
    (↑(xs.filter p) + ↑(xs.filter q) : Multiset α) = ↑(xs.filter r) := by
  induction xs with
  | nil => simp
  | cons hd tl ih =>
    have ihp : (List.filter p tl ++ List.filter q tl).Perm (List.filter r tl) :=
      Multiset.coe_eq_coe.mp (by rwa [Multiset.coe_add] at ih)
    by_cases hp : p hd = true <;> by_cases hq : q hd = true
    · exact absurd ⟨hp, hq⟩ (hdisj hd)
    · have hr : r hd = true := (hiff hd).mpr (Or.inl hp)
      simp [List.filter_cons, hp, hq, hr, Multiset.cons_add, Multiset.add_cons]
      exact ihp
    · have hr : r hd = true := (hiff hd).mpr (Or.inr hq)
      simp [List.filter_cons, hp, hq, hr, Multiset.cons_add, Multiset.add_cons]
      exact List.perm_middle.trans (ihp.cons hd)
    · have hr : r hd = false := by
        rcases hw : r hd with _ | _
        · rfl
        · rcases (hiff hd).mp hw with h | h
          · exact absurd h hp
          · exact absurd h hq
      simp [List.filter_cons, hp, hq, hr, ih]

/-- `filter_multiset_split`, lifted through a projection map. -/
theorem map_filter_multiset_split {α β : Type} (xs : List α) (f : α → β)
    (p q r : α → Bool)
    (hdisj : ∀ x, ¬(p x = true ∧ q x = true))
    (hiff : ∀ x, r x = true ↔ (p x = true ∨ q x = true)) :
    (↑((xs.filter p).map f) + ↑((xs.filter q).map f) : Multiset β)
      = ↑((xs.filter r).map f) := by
  rw [← Multiset.map_coe, ← Multiset.map_coe, ← Multiset.map_coe, ← Multiset.map_add,
    filter_multiset_split xs p q r hdisj hiff]

/-- The event WHERE clause over `(a, c)` minus the boundary `b` splits
exactly into the clauses over `(a, b)` and `(b, c)`, and those are
disjoint. -/
theorem events_pred_split (a b c : Int) (event_types : List String) (h1 : a ≤ b)
    (h2 : b ≤ c) (e : EventRow) :
    ((e.time_fired ≠ b && _select_events_pred a c event_types e) = true
      ↔ (_select_events_pred a b event_types e = true
          ∨ _select_events_pred b c event_types e = true))
    ∧ ¬(_select_events_pred a b event_types e = true
        ∧ _select_events_pred b c event_types e = true) := by
  simp only [_select_events_pred, Bool.and_eq_true, decide_eq_true_eq]
  constructor
  · constructor
    · rintro ⟨hne, ⟨hw1, hw2⟩, hc⟩
      by_cases hlt : e.time_fired < b
      · exact Or.inl ⟨⟨hw1, hlt⟩, hc⟩
      · exact Or.inr ⟨⟨by omega, hw2⟩, hc⟩
    · rintro (⟨⟨hw1, hw2⟩, hc⟩ | ⟨⟨hw1, hw2⟩, hc⟩)
      · exact ⟨by omega, ⟨hw1, by omega⟩, hc⟩
      · exact ⟨by omega, ⟨by omega, hw2⟩, hc⟩
  · rintro ⟨⟨⟨_, hb⟩, _⟩, ⟨hb', _⟩, _⟩
    omega

/-- The state-change WHERE clause over `(a, c)` minus the boundary `b`
splits exactly into the clauses over `(a, b)` and `(b, c)`, and those
are disjoint (the boundary is stated on `last_changed`, the projected
`time_fired`, which the clause forces equal to `last_updated`). -/
theorem states_pred_split (db : DB) (a b c : Int) (h1 : a ≤ b) (h2 : b ≤ c)
    (s : StateRow) :
    ((s.last_changed ≠ b && _select_states_pred db a c s) = true
      ↔ (_select_states_pred db a b s = true ∨ _select_states_pred db b c s = true))
    ∧ ¬(_select_states_pred db a b s = true ∧ _select_states_pred db b c s = true) := by
  simp only [_select_states_pred, Bool.and_eq_true, decide_eq_true_eq]
  constructor
  · constructor
    · rintro ⟨hne, ⟨⟨⟨hw1, hw2⟩, hm⟩, hc⟩, hlc⟩
      by_cases hlt : s.last_updated < b
      · exact Or.inl ⟨⟨⟨⟨hw1, hlt⟩, hm⟩, hc⟩, hlc⟩
      · exact Or.inr ⟨⟨⟨⟨by omega, hw2⟩, hm⟩, hc⟩, hlc⟩
    · rintro (⟨⟨⟨⟨hw1, hw2⟩, hm⟩, hc⟩, hlc⟩ | ⟨⟨⟨⟨hw1, hw2⟩, hm⟩, hc⟩, hlc⟩)
      · exact ⟨by omega, ⟨⟨⟨hw1, by omega⟩, hm⟩, hc⟩, hlc⟩
      · exact ⟨by omega, ⟨⟨⟨by omega, hw2⟩, hm⟩, hc⟩, hlc⟩
  · rintro ⟨⟨⟨⟨⟨_, hb⟩, _⟩, _⟩, hlc⟩, ⟨⟨⟨hb', _⟩, _⟩, _⟩, _⟩
    omega

/-- C6: for adjacent time windows `(a, b)` and `(b, c)` the multiset
union of the rows of the all-entities logbook statement over the two
sub-windows equals its rows over `(a, c)` excluding rows at the shared
boundary timestamp, and both bounds are exclusive: every returned row's
timestamp lies strictly between the window bounds. -/
theorem c6_window_additivity (db : DB) (a b c : Int) (event_types : List String)
    (h1 : a ≤ b) (h2 : b ≤ c) :
    ((_all_stmt db a b event_types none none : List LogRow) : Multiset LogRow)
        + ((_all_stmt db b c event_types none none : List LogRow) : Multiset LogRow)
      = ↑((_all_stmt db a c event_types none none).filter fun r => r.time_fired ≠ b)
    ∧ ∀ r ∈ _all_stmt db a c event_types none none,
        a < r.time_fired ∧ r.time_fired < c := by
  have hall : ∀ (x y : Int), _all_stmt db x y event_types none none
      = orderByTimeFired (_select_events_without_states db x y event_types
          ++ _select_states db x y) := fun x y => rfl
  constructor
  · have horder : ∀ (l : List LogRow), (↑(orderByTimeFired l) : Multiset LogRow) = ↑l :=
      fun l => Multiset.coe_eq_coe.mpr (List.mergeSort_perm l _)
    rw [hall, hall, hall, horder, horder]
    have hfil : (↑((orderByTimeFired (_select_events_without_states db a c event_types
          ++ _select_states db a c)).filter fun r => r.time_fired ≠ b) : Multiset LogRow)
        = ↑((_select_events_without_states db a c event_types
            ++ _select_states db a c).filter fun r => r.time_fired ≠ b) :=
      Multiset.coe_eq_coe.mpr ((List.mergeSort_perm _ _).filter _)
    rw [hfil, List.filter_append, ← Multiset.coe_add, ← Multiset.coe_add,
      ← Multiset.coe_add]
    have hev : (↑(_select_events_without_states db a b event_types) : Multiset LogRow)
        + ↑(_select_events_without_states db b c event_types)
        = ↑((_select_events_without_states db a c event_types).filter
            fun r => r.time_fired ≠ b) := by
      unfold _select_events_without_states
      rw [filter_map_comm, List.filter_filter]
      exact map_filter_multiset_split db.events (eventLogRow db false) _ _ _
        (fun e => (events_pred_split a b c event_types h1 h2 e).2)
        (fun e => (events_pred_split a b c event_types h1 h2 e).1)
    have hst : (↑(_select_states db a b) : Multiset LogRow) + ↑(_select_states db b c)
        = ↑((_select_states db a c).filter fun r => r.time_fired ≠ b) := by
      unfold _select_states
      rw [filter_map_comm, List.filter_filter]
      exact map_filter_multiset_split db.states (stateLogRow db) _ _ _
        (fun s => (states_pred_split db a b c h1 h2 s).2)
        (fun s => (states_pred_split db a b c h1 h2 s).1)
    rw [← hev, ← hst]
    abel
  · intro r hr
    rw [hall] at hr
    have hr' : r ∈ _select_events_without_states db a c event_types
        ++ _select_states db a c :=
      ((List.mergeSort_perm _ _).mem_iff).mp hr
    rcases List.mem_append.mp hr' with hre | hrs
    · simp only [_select_events_without_states, List.mem_map, List.mem_filter] at hre
      obtain ⟨e, ⟨_, hpred⟩, rfl⟩ := hre
      simp only [_select_events_pred, Bool.and_eq_true, decide_eq_true_eq] at hpred
      exact ⟨hpred.1.1, hpred.1.2⟩
    · simp only [_select_states, List.mem_map, List.mem_filter] at hrs
      obtain ⟨s, ⟨_, hpred⟩, rfl⟩ := hrs
      simp only [_select_states_pred, Bool.and_eq_true, decide_eq_true_eq] at hpred
      obtain ⟨⟨⟨⟨hw1, hw2⟩, _⟩, _⟩, hlc⟩ := hpred
      show a < s.last_changed ∧ s.last_changed < c
      omega

/-- Witness for C6 on a concrete database and the windows `(0, 5)`,
`(5, 10)`. -/
theorem c6_witness :
    ((_all_stmt exDB 0 5 ["call_service"] none none : List LogRow) : Multiset LogRow)
        + ((_all_stmt exDB 5 10 ["call_service"] none none : List LogRow) : Multiset LogRow)
      = ↑((_all_stmt exDB 0 10 ["call_service"] none none).filter
          fun r => r.time_fired ≠ 5)
    ∧ ∀ r ∈ _all_stmt exDB 0 10 ["call_service"] none none,
        0 < r.time_fired ∧ r.time_fired < 10 :=
  c6_window_additivity exDB 0 5 10 ["call_service"] (by decide) (by decide)
